import Mathlib

/-!
Shallow embedding of the core data model of the Granite render graph
(src/renderer/render_graph.hpp) together with theorems checking the
natural-language specification against it.

Machine integers (unsigned, VkDeviceSize, bitmask types) are modelled as
Nat: the embedded operations only ever compare them for equality or store
them, so no overflow behaviour is observable.  Pointers to resources are
modelled as Nat identifiers; nullable pointers and smart handles as Option.
-/

namespace Granite

/-- The sentinel value used by the source for an unassigned index, C++
unsigned `(~0u)`. -/
def Unused : Nat := 4294967295

/-- BufferInfo from render_graph.hpp: byte size, usage bitmask,
persistence flag. -/
structure BufferInfo where
  size : Nat
  usage : Nat
  persistent : Bool
  deriving DecidableEq, Repr

/-- Default-constructed BufferInfo per the member initialisers in the
source: size 0, usage 0, persistent true. -/
def BufferInfo.init : BufferInfo := ⟨0, 0, true⟩

/-- BufferInfo operator== from the source: size, usage and persistent must
all be equal. -/
def BufferInfo.eq (a other : BufferInfo) : Bool :=
  decide (a.size = other.size) &&
  decide (a.usage = other.usage) &&
  decide (a.persistent = other.persistent)

/-- BufferInfo operator!= from the source: the negation of operator==. -/
def BufferInfo.ne (a other : BufferInfo) : Bool :=
  !(BufferInfo.eq a other)

/-- ResourceDimensions from render_graph.hpp. -/
structure ResourceDimensions where
  format : Nat
  buffer_info : BufferInfo
  width : Nat
  height : Nat
  depth : Nat
  layers : Nat
  levels : Nat
  transient : Bool
  persistent : Bool
  storage : Bool
  deriving DecidableEq, Repr

/-- ResourceDimensions operator== exactly as written in the source,
including the self-comparison `buffer_info == buffer_info` on line 76
(the left operand's field compared against itself, not against
`other.buffer_info`). -/
def ResourceDimensions.eq (a other : ResourceDimensions) : Bool :=
  decide (a.format = other.format) &&
  decide (a.width = other.width) &&
  decide (a.height = other.height) &&
  decide (a.depth = other.depth) &&
  decide (a.layers = other.layers) &&
  decide (a.levels = other.levels) &&
  BufferInfo.eq a.buffer_info a.buffer_info &&
  decide (a.transient = other.transient) &&
  decide (a.persistent = other.persistent) &&
  decide (a.storage = other.storage)

/-- ResourceDimensions operator!= from the source. -/
def ResourceDimensions.ne (a other : ResourceDimensions) : Bool :=
  !(ResourceDimensions.eq a other)

/-- RenderResource::Type from the source. -/
inductive ResourceType where
  | Buffer
  | Texture
  deriving DecidableEq, Repr

/-- RenderResource from render_graph.hpp: type, logical index, physical
index (initially Unused) and the pass-index sets recording writers and
readers.  The C++ std::unordered_set is modelled as a Finset. -/
structure RenderResource where
  resource_type : ResourceType
  index : Nat
  physical_index : Nat
  written_in_passes : Finset Nat
  read_in_passes : Finset Nat
  deriving DecidableEq

/-- The RenderResource constructor: stores type and index, leaves
physical_index at its member initialiser Unused and both pass sets
empty. -/
def RenderResource.make (type : ResourceType) (index : Nat) : RenderResource :=
  ⟨type, index, Unused, ∅, ∅⟩

/-- RenderResource::written_in_pass: inserts the pass index into the
write set. -/
def RenderResource.written_in_pass (r : RenderResource) (index : Nat) : RenderResource :=
  { r with written_in_passes := insert index r.written_in_passes }

/-- RenderResource::read_in_pass: inserts the pass index into the read
set. -/
def RenderResource.read_in_pass (r : RenderResource) (index : Nat) : RenderResource :=
  { r with read_in_passes := insert index r.read_in_passes }

/-- RenderResource::get_type. -/
def RenderResource.get_type (r : RenderResource) : ResourceType := r.resource_type

/-- RenderResource::get_index. -/
def RenderResource.get_index (r : RenderResource) : Nat := r.index

/-- RenderResource::get_physical_index. -/
def RenderResource.get_physical_index (r : RenderResource) : Nat := r.physical_index

/-- RenderResource::set_physical_index. -/
def RenderResource.set_physical_index (r : RenderResource) (index : Nat) : RenderResource :=
  { r with physical_index := index }

/-- RenderResource::get_read_passes. -/
def RenderResource.get_read_passes (r : RenderResource) : Finset Nat := r.read_in_passes

/-- RenderResource::get_write_passes. -/
def RenderResource.get_write_passes (r : RenderResource) : Finset Nat := r.written_in_passes

/-- RenderPass from render_graph.hpp.  The back-reference to the owning
graph and the pointers held in the typed edge lists are modelled as Nat
identifiers; the nullable depth-stencil and implementation pointers as
Option. -/
structure RenderPass where
  graph : Nat
  index : Nat
  physical_pass : Nat
  stages : Nat
  color_outputs : List Nat
  color_inputs : List Nat
  color_scale_inputs : List Nat
  texture_inputs : List Nat
  storage_texture_inputs : List Nat
  storage_texture_outputs : List Nat
  attachments_inputs : List Nat
  history_inputs : List Nat
  uniform_inputs : List Nat
  storage_outputs : List Nat
  storage_read_inputs : List Nat
  storage_inputs : List Nat
  depth_stencil_input : Option Nat
  depth_stencil_output : Option Nat
  impl : Option Nat
  deriving DecidableEq, Repr

/-- The RenderPass constructor RenderPass(graph, index, stages): stores
the three arguments and leaves every other member at its initialiser
(physical_pass = Unused, empty edge lists, null pointers). -/
def RenderPass.make (graph : Nat) (index : Nat) (stages : Nat) : RenderPass :=
  ⟨graph, index, Unused, stages,
   [], [], [], [], [], [], [], [], [], [], [], [],
   none, none, none⟩

/-- RenderPass::make_color_input_scaled: std::swap of
color_scale_inputs[index] and color_inputs[index].  Both new entries are
read from the pre-call state, as std::swap does. -/
def RenderPass.make_color_input_scaled (p : RenderPass) (index : Nat) : RenderPass :=
  { p with
    color_scale_inputs := p.color_scale_inputs.set index (p.color_inputs.getD index 0),
    color_inputs := p.color_inputs.set index (p.color_scale_inputs.getD index 0) }

/-- RenderPass::get_stages. -/
def RenderPass.get_stages (p : RenderPass) : Nat := p.stages

/-- RenderPass::get_index. -/
def RenderPass.get_index (p : RenderPass) : Nat := p.index

/-- RenderPass::get_physical_pass_index. -/
def RenderPass.get_physical_pass_index (p : RenderPass) : Nat := p.physical_pass

/-- RenderPass::get_color_outputs. -/
def RenderPass.get_color_outputs (p : RenderPass) : List Nat := p.color_outputs

/-- RenderPass::get_color_inputs. -/
def RenderPass.get_color_inputs (p : RenderPass) : List Nat := p.color_inputs

/-- RenderPass::get_color_scale_inputs. -/
def RenderPass.get_color_scale_inputs (p : RenderPass) : List Nat := p.color_scale_inputs

/-- RenderPass::get_texture_inputs. -/
def RenderPass.get_texture_inputs (p : RenderPass) : List Nat := p.texture_inputs

/-- RenderPass::get_storage_texture_inputs. -/
def RenderPass.get_storage_texture_inputs (p : RenderPass) : List Nat := p.storage_texture_inputs

/-- RenderPass::get_storage_texture_outputs. -/
def RenderPass.get_storage_texture_outputs (p : RenderPass) : List Nat := p.storage_texture_outputs

/-- RenderPass::get_attachment_inputs. -/
def RenderPass.get_attachment_inputs (p : RenderPass) : List Nat := p.attachments_inputs

/-- RenderPass::get_history_inputs. -/
def RenderPass.get_history_inputs (p : RenderPass) : List Nat := p.history_inputs

/-- RenderPass::get_uniform_inputs. -/
def RenderPass.get_uniform_inputs (p : RenderPass) : List Nat := p.uniform_inputs

/-- RenderPass::get_storage_inputs. -/
def RenderPass.get_storage_inputs (p : RenderPass) : List Nat := p.storage_inputs

/-- RenderPass::get_storage_read_inputs. -/
def RenderPass.get_storage_read_inputs (p : RenderPass) : List Nat := p.storage_read_inputs

/-- RenderPass::get_storage_outputs. -/
def RenderPass.get_storage_outputs (p : RenderPass) : List Nat := p.storage_outputs

/-- RenderPass::get_depth_stencil_input. -/
def RenderPass.get_depth_stencil_input (p : RenderPass) : Option Nat := p.depth_stencil_input

/-- RenderPass::get_depth_stencil_output. -/
def RenderPass.get_depth_stencil_output (p : RenderPass) : Option Nat := p.depth_stencil_output

/-- The base-class default body of the virtual
RenderPassImplementation::get_clear_color: it returns false and does not
touch the (possibly null) target pointer.  The pointee state is threaded
explicitly: the second component of the result is the target state after
the call. -/
def RenderPassImplementation.get_clear_color
    (_attachment : Nat) (target : Option Nat) : Bool × Option Nat :=
  (false, target)

/-- The base-class default body of the virtual
RenderPassImplementation::get_clear_depth_stencil: returns false, target
pointee untouched. -/
def RenderPassImplementation.get_clear_depth_stencil
    (target : Option (Nat × Nat)) : Bool × Option (Nat × Nat) :=
  (false, target)

/-- A Vulkan image handle's pointee, reduced to the view it exposes via
get_view(). -/
structure Image where
  view : Nat
  deriving DecidableEq, Repr

/-- Vulkan::Image::get_view. -/
def Image.get_view (img : Image) : Nat := img.view

/-- The slice of RenderGraph state that the history accessor reads: the
per-physical-index list of history image handles, a null handle modelled
as none. -/
structure RenderGraph where
  physical_history_image_attachments : List (Option Image)
  deriving DecidableEq, Repr

/-- RenderGraph::get_physical_history_texture_resource from the source:
if the handle at the index is null, return nullptr; otherwise return the
stored image's view. -/
def RenderGraph.get_physical_history_texture_resource
    (g : RenderGraph) (index : Nat) : Option Nat :=
  match g.physical_history_image_attachments.getD index none with
  | none => none
  | some img => some (Image.get_view img)

/-- Modelled from the spec: the per-pass view of the dependency analyzer
(section 4.2).  RenderGraph::bake is only declared in render_graph.hpp;
its implementation is not under src, so the pass is reduced to the two
edge sets the analyzer consults: the resource indices it writes and the
dependency-contributing resource indices it reads (color, texture,
attachment, storage-read, uniform, storage-read-only, depth-input;
history inputs contribute no dependencies and are omitted). -/
structure GPass where
  writes : List Nat
  reads : List Nat
  deriving DecidableEq, Repr

/-- A pass with no edges, used as the out-of-range default. -/
def GPass.empty : GPass := ⟨[], []⟩

/-- Modelled from the spec: the pass/resource tables the dependency
analyzer runs on — the declared passes (indexed by position) and the
resource index designated as backbuffer source. -/
structure DepGraph where
  passes : List GPass
  backbuffer : Nat
  deriving DecidableEq, Repr

/-- The pass stored at a given index. -/
def DepGraph.passAt (g : DepGraph) (i : Nat) : GPass :=
  g.passes.getD i GPass.empty

/-- Modelled from the spec: the producers of a resource — the passes
whose write set contains it, in pass-index order. -/
def DepGraph.producers (g : DepGraph) (r : Nat) : List Nat :=
  (List.range g.passes.length).filter fun i => decide (r ∈ (g.passAt i).writes)

/-- Modelled from the spec: the work-stack expansion of section 4.2,
steps 2-3.  Pops a pass, pushes the producers of each of its inputs, and
accumulates popped passes (the accumulator is kept reversed, so its head
is the most recently expanded pass and dependencies end up leftmost).
Re-pushes are kept so that a producer rediscovered by a later consumer
moves earlier in the final order.  Fuel bounds the expansion; running
out with work remaining signals a dependency cycle and fails the bake. -/
def DepGraph.traverse (g : DepGraph) : Nat → List Nat → List Nat → Option (List Nat)
  | 0, stack, acc => if stack.isEmpty then some acc else none
  | _ + 1, [], acc => some acc
  | fuel + 1, p :: rest, acc =>
      DepGraph.traverse g fuel
        ((((g.passAt p).reads.map fun r => g.producers r).flatten) ++ rest)
        (p :: acc)

/-- Helper for filter_passes: keep each pass index the first time it is
seen, dropping later duplicates. -/
def dedupKeepFirst : List Nat → List Nat → List Nat
  | [], _ => []
  | x :: xs, seen =>
      if x ∈ seen then dedupKeepFirst xs seen
      else x :: dedupKeepFirst xs (x :: seen)

/-- Modelled from the spec: RenderGraph::filter_passes (declared in the
header, implemented outside src), section 4.2 step 4 — collapse
duplicate pass indices, keeping the last occurrence of the expansion
order, which is the first occurrence of the dependencies-first list. -/
def filter_passes (l : List Nat) : List Nat :=
  dedupKeepFirst l []

/-- Modelled from the spec: RenderGraph::validate_passes (declared in the
header, implemented outside src), section 4.2 step 5 — every resource
read by a pass in the order must have at least one writer (the backbuffer
source excepted), and every writer of a resource must precede every
reader of it in the order. -/
def validate_passes (g : DepGraph) (order : List Nat) : Bool :=
  ((List.range order.length).all fun i =>
    (List.range order.length).all fun j =>
      !((g.passAt (order.getD i 0)).writes.any fun r =>
          decide (r ∈ (g.passAt (order.getD j 0)).reads)) ||
      decide (i < j)) &&
  (order.all fun p =>
    (g.passAt p).reads.all fun r =>
      decide (r = g.backbuffer) || !(g.producers r).isEmpty)

/-- Fuel for the expansion: in an acyclic graph each stack entry
corresponds to a distinct producer chain, so this bound is only reached
when the declared edges contain a cycle. -/
def DepGraph.fuel (g : DepGraph) : Nat :=
  (g.passes.length + 1) ^ (g.passes.length + 1)

/-- Modelled from the spec: RenderGraph::bake (declared on line 435 of
render_graph.hpp, implemented outside src), restricted to the dependency
analyzer it runs first (section 4.2): seed the work stack with the
producers of the backbuffer source, expand, collapse duplicates, then
validate; the ordered pass list is produced only when validation
passes. -/
def DepGraph.bake (g : DepGraph) : Option (List Nat) :=
  match DepGraph.traverse g (DepGraph.fuel g) (g.producers g.backbuffer) [] with
  | none => none
  | some acc =>
      if validate_passes g (filter_passes acc) then some (filter_passes acc)
      else none

/-- Two dimension records used to exhibit the self-compare in
ResourceDimensions operator==: identical except for the buffer size. -/
def dimsA : ResourceDimensions :=
  ⟨0, ⟨0, 0, true⟩, 0, 0, 1, 1, 1, false, false, false⟩

/-- Same record as dimsA but with buffer_info.size = 1. -/
def dimsB : ResourceDimensions :=
  ⟨0, ⟨1, 0, true⟩, 0, 0, 1, 1, 1, false, false, false⟩

/-- Claim C1: the claim says two ResourceDimensions records compare equal
only if their buffer descriptors compare equal.  The source's operator==
compares buffer_info against itself, so dimsA and dimsB — which differ
exactly in buffer_info — still compare equal: operator== never consults
the other record's buffer descriptor.  This refutes the claim on the
code; the spec's design notes mark the self-compare as a source bug. -/
theorem resource_dimensions_eq_ignores_buffer_info :
    ResourceDimensions.eq dimsA dimsB = true ∧
    BufferInfo.eq dimsA.buffer_info dimsB.buffer_info = false ∧
    ResourceDimensions.ne dimsA dimsB = false := by
  decide

/-- Claim C5: recording the same pass index twice on the same edge set is
idempotent — a second written_in_pass (resp. read_in_pass) with the same
index leaves the resource exactly as after the first call. -/
theorem edge_recording_idempotent (r : RenderResource) (n : Nat) :
    (r.written_in_pass n).written_in_pass n = r.written_in_pass n ∧
    (r.read_in_pass n).read_in_pass n = r.read_in_pass n := by
  constructor <;>
    simp [RenderResource.written_in_pass, RenderResource.read_in_pass,
      Finset.insert_idem]

/-- Claim C6: BufferInfo operator== is true exactly when size, usage and
persistence all agree, and operator!= is its negation. -/
theorem buffer_info_eq_componentwise (a b : BufferInfo) :
    (BufferInfo.eq a b = true ↔
      (a.size = b.size ∧ a.usage = b.usage ∧ a.persistent = b.persistent)) ∧
    BufferInfo.ne a b = !(BufferInfo.eq a b) := by
  refine ⟨?_, rfl⟩
  simp [BufferInfo.eq, and_assoc]

/-- Witness for buffer_info_eq_componentwise at concrete descriptors. -/
theorem buffer_info_eq_componentwise_witness :
    (BufferInfo.eq ⟨4, 2, true⟩ ⟨4, 2, true⟩ = true ↔
      ((4 : Nat) = 4 ∧ (2 : Nat) = 2 ∧ true = true)) ∧
    BufferInfo.ne ⟨4, 2, true⟩ ⟨4, 2, true⟩ =
      !(BufferInfo.eq ⟨4, 2, true⟩ ⟨4, 2, true⟩) :=
  buffer_info_eq_componentwise ⟨4, 2, true⟩ ⟨4, 2, true⟩

/-- Claim C7: a freshly constructed RenderResource reports physical index
Unused, and exactly the constructor's index and type; the physical index
stays Unused under the edge-recording operations until
set_physical_index is called, which then overwrites it. -/
theorem fresh_resource_state (t : ResourceType) (i : Nat) :
    (RenderResource.make t i).get_physical_index = Unused ∧
    (RenderResource.make t i).get_index = i ∧
    (RenderResource.make t i).get_type = t ∧
    (∀ n, ((RenderResource.make t i).written_in_pass n).get_physical_index = Unused) ∧
    (∀ n, ((RenderResource.make t i).read_in_pass n).get_physical_index = Unused) ∧
    (∀ q, ((RenderResource.make t i).set_physical_index q).get_physical_index = q) :=
  ⟨rfl, rfl, rfl, fun _ => rfl, fun _ => rfl, fun _ => rfl⟩

/-- Claim C8: the base RenderPassImplementation's default query bodies
return false for every attachment index and every target state, and
leave the target pointee untouched. -/
theorem default_clear_queries (i : Nat) (c : Option Nat) (d : Option (Nat × Nat)) :
    RenderPassImplementation.get_clear_color i c = (false, c) ∧
    RenderPassImplementation.get_clear_depth_stencil d = (false, d) :=
  ⟨rfl, rfl⟩

/-- Claim C9: written_in_pass inserts the pass index into the write set
and changes nothing else; read_in_pass inserts into the read set and
changes nothing else. -/
theorem edge_recording_effects (r : RenderResource) (n : Nat) :
    (r.written_in_pass n).written_in_passes = insert n r.written_in_passes ∧
    n ∈ (r.written_in_pass n).written_in_passes ∧
    (r.written_in_pass n).read_in_passes = r.read_in_passes ∧
    (r.written_in_pass n).index = r.index ∧
    (r.written_in_pass n).resource_type = r.resource_type ∧
    (r.written_in_pass n).physical_index = r.physical_index ∧
    (r.read_in_pass n).read_in_passes = insert n r.read_in_passes ∧
    n ∈ (r.read_in_pass n).read_in_passes ∧
    (r.read_in_pass n).written_in_passes = r.written_in_passes ∧
    (r.read_in_pass n).index = r.index ∧
    (r.read_in_pass n).resource_type = r.resource_type ∧
    (r.read_in_pass n).physical_index = r.physical_index :=
  ⟨rfl, Finset.mem_insert_self n _, rfl, rfl, rfl, rfl,
   rfl, Finset.mem_insert_self n _, rfl, rfl, rfl, rfl⟩

/-- Reading a list at the slot just overwritten by set yields the new
value, when the slot is in range. -/
theorem getD_set_self (l : List Nat) (i a d : Nat) (h : i < l.length) :
    (l.set i a).getD i d = a := by
  induction l generalizing i with
  | nil => simp at h
  | cons x xs ih =>
    cases i with
    | zero => rfl
    | succ n =>
      have hn : n < xs.length := Nat.lt_of_succ_lt_succ h
      simpa using ih n hn

/-- Reading a list at any slot other than the one overwritten by set is
unchanged. -/
theorem getD_set_other (l : List Nat) (i j a d : Nat) (h : j ≠ i) :
    (l.set i a).getD j d = l.getD j d := by
  induction l generalizing i j with
  | nil => simp
  | cons x xs ih =>
    cases i with
    | zero =>
      cases j with
      | zero => exact absurd rfl h
      | succ m => simp
    | succ n =>
      cases j with
      | zero => rfl
      | succ m =>
        have hm : m ≠ n := fun he => h (by rw [he])
        simpa using ih n m hm

/-- Claim C3: make_color_input_scaled exchanges the entries of
color_inputs and color_scale_inputs at the given slot and leaves both
lists otherwise unchanged — same lengths, and every other slot of either
list keeps its former entry. -/
theorem make_color_input_scaled_swaps (p : RenderPass) (i : Nat)
    (hc : i < p.get_color_inputs.length)
    (hs : i < p.get_color_scale_inputs.length) :
    (p.make_color_input_scaled i).get_color_scale_inputs.getD i 0 =
      p.get_color_inputs.getD i 0 ∧
    (p.make_color_input_scaled i).get_color_inputs.getD i 0 =
      p.get_color_scale_inputs.getD i 0 ∧
    (p.make_color_input_scaled i).get_color_inputs.length =
      p.get_color_inputs.length ∧
    (p.make_color_input_scaled i).get_color_scale_inputs.length =
      p.get_color_scale_inputs.length ∧
    (∀ j, j ≠ i →
      (p.make_color_input_scaled i).get_color_inputs.getD j 0 =
        p.get_color_inputs.getD j 0 ∧
      (p.make_color_input_scaled i).get_color_scale_inputs.getD j 0 =
        p.get_color_scale_inputs.getD j 0) := by
  refine ⟨?_, ?_, ?_, ?_, ?_⟩
  · exact getD_set_self _ _ _ _ hs
  · exact getD_set_self _ _ _ _ hc
  · simp [RenderPass.make_color_input_scaled, RenderPass.get_color_inputs]
  · simp [RenderPass.make_color_input_scaled, RenderPass.get_color_scale_inputs]
  · intro j hj
    exact ⟨getD_set_other _ _ _ _ _ hj, getD_set_other _ _ _ _ _ hj⟩

/-- A concrete pass used to exercise make_color_input_scaled: two color
inputs and two color-scale inputs. -/
def swapPass : RenderPass :=
  { RenderPass.make 0 0 0 with
    color_inputs := [10, 11],
    color_scale_inputs := [20, 21] }

/-- Witness for make_color_input_scaled_swaps: at slot 0 of swapPass the
two hypotheses hold and the swap is observed. -/
theorem make_color_input_scaled_swaps_witness :
    0 < swapPass.get_color_inputs.length ∧
    0 < swapPass.get_color_scale_inputs.length ∧
    ((swapPass.make_color_input_scaled 0).get_color_scale_inputs.getD 0 0 =
       swapPass.get_color_inputs.getD 0 0 ∧
     (swapPass.make_color_input_scaled 0).get_color_inputs.getD 0 0 =
       swapPass.get_color_scale_inputs.getD 0 0 ∧
     (swapPass.make_color_input_scaled 0).get_color_inputs.length =
       swapPass.get_color_inputs.length ∧
     (swapPass.make_color_input_scaled 0).get_color_scale_inputs.length =
       swapPass.get_color_scale_inputs.length ∧
     (∀ j, j ≠ 0 →
       (swapPass.make_color_input_scaled 0).get_color_inputs.getD j 0 =
         swapPass.get_color_inputs.getD j 0 ∧
       (swapPass.make_color_input_scaled 0).get_color_scale_inputs.getD j 0 =
         swapPass.get_color_scale_inputs.getD j 0)) :=
  ⟨by decide, by decide,
   make_color_input_scaled_swaps swapPass 0 (by decide) (by decide)⟩

/-- Claim C4: the history accessor returns null when the history image
slot is unpopulated, and the stored image's view when it is populated. -/
theorem history_accessor (g : RenderGraph) (i : Nat) :
    (g.physical_history_image_attachments.getD i none = none →
      g.get_physical_history_texture_resource i = none) ∧
    (∀ img, g.physical_history_image_attachments.getD i none = some img →
      g.get_physical_history_texture_resource i = some (Image.get_view img)) := by
  constructor
  · intro h
    unfold RenderGraph.get_physical_history_texture_resource
    rw [h]
  · intro img h
    unfold RenderGraph.get_physical_history_texture_resource
    rw [h]

/-- A graph state with an unpopulated history slot 0 (first frame) and a
populated slot 1. -/
def historyGraph : RenderGraph := ⟨[none, some ⟨5⟩]⟩

/-- Witness for history_accessor on historyGraph: slot 0 yields null,
slot 1 yields the stored view. -/
theorem history_accessor_witness :
    historyGraph.get_physical_history_texture_resource 0 = none ∧
    historyGraph.get_physical_history_texture_resource 1 = some 5 :=
  ⟨(history_accessor historyGraph 0).1 rfl,
   (history_accessor historyGraph 1).2 ⟨5⟩ rfl⟩

/-- Claim C2: topological soundness of the baked order.  Whenever bake
produces an ordered pass list, any pass writing a resource that another
pass in the order reads occupies a strictly earlier position: the
validation step of the dependency analyzer admits no other order. -/
theorem bake_topological_soundness (g : DepGraph) (order : List Nat)
    (hb : g.bake = some order)
    (i j r : Nat) (hi : i < order.length) (hj : j < order.length)
    (hw : r ∈ (g.passAt (order.getD i 0)).writes)
    (hr : r ∈ (g.passAt (order.getD j 0)).reads) :
    i < j := by
  have hv : validate_passes g order = true := by
    unfold DepGraph.bake at hb
    cases htr : DepGraph.traverse g g.fuel (g.producers g.backbuffer) [] with
    | none =>
        rw [htr] at hb
        exact absurd hb (by simp)
    | some acc =>
        rw [htr] at hb
        dsimp only at hb
        by_cases hval : validate_passes g (filter_passes acc) = true
        · rw [if_pos hval] at hb
          have heq : filter_passes acc = order := by
            injection hb
          rw [← heq]
          exact hval
        · rw [if_neg hval] at hb
          exact absurd hb (by simp)
  simp only [validate_passes, Bool.and_eq_true] at hv
  obtain ⟨h1, _⟩ := hv
  have h2 := List.all_eq_true.mp h1 i (List.mem_range.mpr hi)
  have h3 := List.all_eq_true.mp h2 j (List.mem_range.mpr hj)
  have hany : ((g.passAt (order.getD i 0)).writes.any fun s =>
      decide (s ∈ (g.passAt (order.getD j 0)).reads)) = true :=
    List.any_eq_true.mpr ⟨r, hw, decide_eq_true hr⟩
  rw [hany] at h3
  simpa using h3

/-- A two-pass graph: pass 0 writes resource 0; pass 1 reads resource 0
and writes resource 1, the backbuffer source. -/
def chainGraph : DepGraph := ⟨[⟨[0], []⟩, ⟨[1], [0]⟩], 1⟩

/-- Witness for bake_topological_soundness: on chainGraph, bake yields
the order [0, 1], pass 0 writes resource 0 which pass 1 reads, and the
theorem places the writer strictly before the reader. -/
theorem bake_topological_soundness_witness :
    chainGraph.bake = some [0, 1] ∧
    0 < [0, 1].length ∧ 1 < [0, 1].length ∧
    0 ∈ (chainGraph.passAt ([0, 1].getD 0 0)).writes ∧
    0 ∈ (chainGraph.passAt ([0, 1].getD 1 0)).reads ∧
    0 < 1 :=
  ⟨by decide, by decide, by decide, by decide, by decide,
   bake_topological_soundness chainGraph [0, 1] (by decide) 0 1 0
     (by decide) (by decide) (by decide) (by decide)⟩

/-- Claim C10: a freshly constructed RenderPass has physical pass index
Unused, every typed edge list empty, null depth-stencil pointers, no
implementation set, and reports exactly the constructor's stages and
index. -/
theorem fresh_pass_state (g i s : Nat) :
    (RenderPass.make g i s).get_physical_pass_index = Unused ∧
    (RenderPass.make g i s).get_color_outputs = [] ∧
    (RenderPass.make g i s).get_color_inputs = [] ∧
    (RenderPass.make g i s).get_color_scale_inputs = [] ∧
    (RenderPass.make g i s).get_texture_inputs = [] ∧
    (RenderPass.make g i s).get_storage_texture_inputs = [] ∧
    (RenderPass.make g i s).get_storage_texture_outputs = [] ∧
    (RenderPass.make g i s).get_attachment_inputs = [] ∧
    (RenderPass.make g i s).get_history_inputs = [] ∧
    (RenderPass.make g i s).get_uniform_inputs = [] ∧
    (RenderPass.make g i s).get_storage_inputs = [] ∧
    (RenderPass.make g i s).get_storage_read_inputs = [] ∧
    (RenderPass.make g i s).get_storage_outputs = [] ∧
    (RenderPass.make g i s).get_depth_stencil_input = none ∧
    (RenderPass.make g i s).get_depth_stencil_output = none ∧
    (RenderPass.make g i s).impl = none ∧
    (RenderPass.make g i s).get_stages = s ∧
    (RenderPass.make g i s).get_index = i :=
  ⟨rfl, rfl, rfl, rfl, rfl, rfl, rfl, rfl, rfl, rfl, rfl, rfl, rfl, rfl,
   rfl, rfl, rfl, rfl⟩

end Granite
